import Mathlib

/-!
Verification of the bybit_test trading engine against its specification.

Shallow embedding of src/constants.py, src/utils.py and src/trading_engine.py
over exact rational arithmetic.  Python floats are modelled as rationals and
Python `round(x, n)` as `roundTo n x = round (x * 10^n) / 10^n`; none of the
properties checked here depends on binary-float representation error or on
tie-breaking of the rounding.  A Python `ZeroDivisionError` is modelled by
`Except PyError`; functions returning `None` on failure are modelled with
`Option`.
-/

namespace Bybit

/-- Rounding to `n` decimal places: model of Python `round(x, n)` on rationals. -/
def roundTo (n : ℕ) (x : ℚ) : ℚ := (round (x * (10 : ℚ) ^ n) : ℚ) / (10 : ℚ) ^ n

/-- Position side from the configuration: `long` or `short`.  The source code
compares the configured string with `short` and treats every other value as
long; the claims quantify only over these two values. -/
inductive Side where
  | long : Side
  | short : Side
deriving DecidableEq, Repr

/-- Exchange order side (`Buy` / `Sell`). -/
inductive ApiSide where
  | Buy : ApiSide
  | Sell : ApiSide
deriving DecidableEq, Repr

/-- TradingConstants.MIN_QUANTITY from src/constants.py. -/
def MIN_QUANTITY : ℚ := 1 / 1000

/-- TradingConstants.ROUND_DECIMALS from src/constants.py. -/
def ROUND_DECIMALS : ℕ := 3

/-- calculate_quantity from src/utils.py: `qty = round(amount / price, 3)`,
clamped up to MIN_QUANTITY when the rounded value is below it (the intermediate
variable `qty` of the source is inlined). -/
def calculate_quantity (amount price : ℚ) : ℚ :=
  if roundTo ROUND_DECIMALS (amount / price) < MIN_QUANTITY then MIN_QUANTITY
  else roundTo ROUND_DECIMALS (amount / price)

/-- calculate_tp_price from src/utils.py: `short` branch returns
`current_price * (1 - percent / 100)`, the else branch (long) returns
`current_price * (1 + percent / 100)`. -/
def calculate_tp_price (current_price percent : ℚ) (side : Side) : ℚ :=
  match side with
  | Side.short => current_price * (1 - percent / 100)
  | Side.long => current_price * (1 + percent / 100)

/-- Lower bound of the DCA price window, from calculate_dca_prices in
src/utils.py: the `short` branch sets `min_price = current_price * (1 -
range_percent / 100)`, the else branch (long) sets `min_price = current_price`. -/
def dca_min_price (current_price range_percent : ℚ) : Side → ℚ
  | Side.short => current_price * (1 - range_percent / 100)
  | Side.long => current_price

/-- Upper bound of the DCA price window, from calculate_dca_prices in
src/utils.py: the `short` branch sets `max_price = current_price`, the else
branch (long) sets `max_price = current_price * (1 + range_percent / 100)`. -/
def dca_max_price (current_price range_percent : ℚ) : Side → ℚ
  | Side.short => current_price
  | Side.long => current_price * (1 + range_percent / 100)

/-- Python runtime error raised by the embedded code. -/
inductive PyError where
  | zeroDivision : PyError
deriving DecidableEq, Repr

/-- The step between DCA orders: `(max_price - min_price) / (orders_count - 1)`
from src/utils.py line 126. -/
def dca_price_step (current_price range_percent : ℚ) (orders_count : ℕ) (side : Side) : ℚ :=
  (dca_max_price current_price range_percent side - dca_min_price current_price range_percent side)
    / ((orders_count : ℚ) - 1)

/-- Price of DCA leg i from the loop body of calculate_dca_prices
(src/utils.py lines 129-131): `round(min_price + i * price_step, 2)`. -/
def dca_leg_price (current_price range_percent : ℚ) (orders_count : ℕ) (side : Side)
    (i : ℕ) : ℚ :=
  roundTo 2 (dca_min_price current_price range_percent side +
    (i : ℚ) * dca_price_step current_price range_percent orders_count side)

/-- calculate_dca_prices from src/utils.py: raises ZeroDivisionError exactly
when `orders_count - 1 == 0`, otherwise returns the leg price for each
`i in range(orders_count)`. -/
def calculate_dca_prices (current_price range_percent : ℚ) (orders_count : ℕ) (side : Side) :
    Except PyError (List ℚ) :=
  if orders_count = 1 then Except.error PyError.zeroDivision
  else Except.ok ((List.range orders_count).map
    (dca_leg_price current_price range_percent orders_count side))

/-- get_api_side from src/utils.py: Sell for short, Buy otherwise. -/
def get_api_side : Side → ApiSide
  | Side.short => ApiSide.Sell
  | Side.long => ApiSide.Buy

/-- get_tp_side from src/utils.py: Buy for short, Sell otherwise. -/
def get_tp_side : Side → ApiSide
  | Side.short => ApiSide.Buy
  | Side.long => ApiSide.Sell

/-- One entry of the configured tp_orders list. -/
structure TpLegCfg where
  price_percent : ℚ
  quantity_percent : ℚ
deriving DecidableEq, Repr

/-- The limit_orders sub-object of the configuration; field presence is
modelled with Option, mirroring the `in` checks of validate_config. -/
structure LimitOrdersCfg where
  range_percent : Option ℚ
  orders_count : Option ℕ
deriving DecidableEq, Repr

/-- Raw JSON configuration as probed by validate_config (src/utils.py).
Field presence is modelled with Option.  validate_config never inspects the
contents of symbol, side, market_order_amount or leverage beyond presence, so
symbol contents are modelled as Unit. -/
structure RawConfig where
  symbol : Option Unit
  side : Option Side
  market_order_amount : Option ℚ
  leverage : Option ℕ
  tp_orders : Option (List TpLegCfg)
  limit_orders : Option LimitOrdersCfg
  limit_orders_amount : Option ℚ
deriving DecidableEq, Repr

/-- ValueError raised by validate_config, tagged with the failing check. -/
inductive ConfigError where
  | missingSymbol : ConfigError
  | missingSide : ConfigError
  | missingMarketOrderAmount : ConfigError
  | missingLeverage : ConfigError
  | missingTpOrders : ConfigError
  | missingLimitOrders : ConfigError
  | tpOrdersEmpty : ConfigError
  | limitOrdersFieldMissing : ConfigError
deriving DecidableEq, Repr

/-- validate_config from src/utils.py: checks presence of the six
required_fields in order, then that tp_orders is a non-empty list, then that
limit_orders carries range_percent and orders_count; returns True otherwise.
limit_orders_amount appears nowhere in the checks. -/
def validate_config (config : RawConfig) : Except ConfigError Bool :=
  if config.symbol.isNone then Except.error ConfigError.missingSymbol
  else if config.side.isNone then Except.error ConfigError.missingSide
  else if config.market_order_amount.isNone then Except.error ConfigError.missingMarketOrderAmount
  else if config.leverage.isNone then Except.error ConfigError.missingLeverage
  else if config.tp_orders.isNone then Except.error ConfigError.missingTpOrders
  else if config.limit_orders.isNone then Except.error ConfigError.missingLimitOrders
  else if (config.tp_orders.getD []).length = 0 then Except.error ConfigError.tpOrdersEmpty
  else if ((config.limit_orders.getD { range_percent := none, orders_count := none }).range_percent.isNone
      || (config.limit_orders.getD { range_percent := none, orders_count := none }).orders_count.isNone) then
    Except.error ConfigError.limitOrdersFieldMissing
  else Except.ok true

/-- Configuration that is complete except for limit_orders_amount. -/
def configWithoutLimitOrdersAmount : RawConfig :=
  { symbol := some ()
    side := some Side.long
    market_order_amount := some 1000
    leverage := some 10
    tp_orders := some [{ price_percent := 5, quantity_percent := 50 }]
    limit_orders := some { range_percent := some 5, orders_count := some 3 }
    limit_orders_amount := none }

/-- Validated configuration as consumed by the TradingEngine order-placement
methods (fields flattened from the JSON object). -/
structure Config where
  side : Side
  market_order_amount : ℚ
  tp_orders : List TpLegCfg
  range_percent : ℚ
  orders_count : ℕ
  limit_orders_amount : ℚ
deriving DecidableEq, Repr

/-- Exchange order type. -/
inductive OrderType where
  | Market : OrderType
  | Limit : OrderType
deriving DecidableEq, Repr

/-- Exchange time-in-force. -/
inductive TimeInForce where
  | IOC : TimeInForce
  | GTC : TimeInForce
deriving DecidableEq, Repr

/-- Exchange order status as reported in order lists. -/
inductive OrderStatus where
  | New : OrderStatus
  | Filled : OrderStatus
  | Cancelled : OrderStatus
  | Rejected : OrderStatus
deriving DecidableEq, Repr

/-- One limit leg (side, price, quantity) as submitted by the ladder methods. -/
structure Leg where
  side : ApiSide
  price : ℚ
  qty : ℚ
deriving DecidableEq, Repr

/-- TradingEngine.place_tp_orders: for each configured tp leg, price is
round(calculate_tp_price(basis, price_percent, side), 2), quantity is
calculate_quantity(quantity_percent / 100 * market_order_amount, basis) and
the order side is get_tp_side(side).  A leg whose placement fails is logged
and skipped; the sequence of submitted legs is modelled. -/
def place_tp_orders (config : Config) (current_price : ℚ) : List Leg :=
  config.tp_orders.map fun tp =>
    { side := get_tp_side config.side
      price := roundTo 2 (calculate_tp_price current_price tp.price_percent config.side)
      qty := calculate_quantity (tp.quantity_percent / 100 * config.market_order_amount)
        current_price }

/-- TradingEngine.place_dca_orders: prices from calculate_dca_prices, each leg
quantity calculate_quantity(limit_orders_amount / orders_count, price), order
side get_api_side(side); propagates the ZeroDivisionError of the price
computation. -/
def place_dca_orders (config : Config) (current_price : ℚ) : Except PyError (List Leg) :=
  (calculate_dca_prices current_price config.range_percent config.orders_count config.side).map
    fun prices => prices.map fun p =>
      { side := get_api_side config.side
        price := p
        qty := calculate_quantity (config.limit_orders_amount / (config.orders_count : ℚ)) p }

/-- One position entry of a get_positions response. -/
structure PositionInfo where
  size : ℚ
  avgPrice : ℚ
deriving DecidableEq, Repr

/-- One entry of a get_open_orders response. -/
structure OpenOrder where
  orderId : ℕ
  orderType : OrderType
  orderStatus : OrderStatus
deriving DecidableEq, Repr

/-- get_positions response: Bybit retCode (0 = success) and the position list. -/
structure PositionsResponse where
  retCode : ℤ
  list : List PositionInfo
deriving DecidableEq, Repr

/-- get_open_orders response: Bybit retCode (0 = success) and the order list. -/
structure OrdersResponse where
  retCode : ℤ
  list : List OpenOrder
deriving DecidableEq, Repr

/-- TradingEngine.get_current_position_info: the first reported position when
the response succeeds and that position has size > 0, otherwise None (the
exception path also yields None). -/
def get_current_position_info (resp : PositionsResponse) : Option PositionInfo :=
  if resp.retCode = 0 then
    match resp.list with
    | [] => none
    | pos :: _ => if pos.size > 0 then some pos else none
  else none

/-- TradingEngine.calculate_new_avg_price: the avgPrice field of the current
position info — the exchange-reported average entry price — or None. -/
def calculate_new_avg_price (resp : PositionsResponse) : Option ℚ :=
  (get_current_position_info resp).map PositionInfo.avgPrice

/-- TradingEngine.recalculate_tp_orders: cancels the old TP (Limit) orders,
re-reads the average price and, unless `not new_avg_price` (None or 0.0),
replans the TP ladder from the stored config and the fresh average price.
Returns the newly planned legs, None when the early return was taken. -/
def recalculate_tp_orders (config : Config) (resp : PositionsResponse) : Option (List Leg) :=
  match calculate_new_avg_price resp with
  | none => none
  | some avg => if avg = 0 then none else some (place_tp_orders config avg)

/-- TradingEngine.check_executed_orders: scans the open-orders response and,
for each order with status Filled, invokes recalculate_tp_orders once; the
number of recompute invocations in one call is modelled (0 when retCode is
non-zero or on the logged exception path). -/
def check_executed_orders_recomputes (orders : OrdersResponse) : ℕ :=
  if orders.retCode = 0 then
    (orders.list.filter fun o => decide (o.orderStatus = OrderStatus.Filled)).length
  else 0

/-- TradingEngine.monitor_positions: one monitoring tick.  When the positions
response succeeds and the first position has size > 0 it runs
check_executed_orders; otherwise the tick is a no-op.  The number of TP
recompute invocations of the tick is modelled. -/
def monitor_tick_recomputes (positions : PositionsResponse) (orders : OrdersResponse) : ℕ :=
  if positions.retCode = 0 then
    match positions.list with
    | [] => 0
    | pos :: _ => if pos.size > 0 then check_executed_orders_recomputes orders else 0
  else 0

/-- Growth predicate following the words of the specification (§4.4), stated
for comparison with the trigger found in the source: true iff the newly polled size strictly
exceeds the last observed size and the last observed size is positive.  No
such baseline comparison exists anywhere in src/trading_engine.py. -/
def hasGrown_specContract (lastObservedPositionSize newSize : ℚ) : Bool :=
  decide (newSize > lastObservedPositionSize) && decide (lastObservedPositionSize > 0)

/-- Market order request as submitted by the shutdown flattener. -/
structure MarketOrderReq where
  side : ApiSide
  orderType : OrderType
  qty : ℚ
  timeInForce : TimeInForce
deriving DecidableEq, Repr

/-- The close side of TradingEngine.close_all_positions:
`"Buy" if side == "short" else "Sell"`. -/
def close_side : Side → ApiSide
  | Side.short => ApiSide.Buy
  | Side.long => ApiSide.Sell

/-- TradingEngine.cancel_all_orders: cancels every order of the open-orders
response, with no filter on order type (each cancel is individually logged on
failure); the cancelled order ids are modelled. -/
def cancel_all_orders (orders : OrdersResponse) : List ℕ :=
  if orders.retCode = 0 then orders.list.map OpenOrder.orderId else []

/-- Actions performed by the shutdown flattener. -/
structure ShutdownTrace where
  closeOrder : Option MarketOrderReq
  cancelledIds : List ℕ
deriving DecidableEq, Repr

/-- TradingEngine.close_all_positions: when the positions response succeeds
and the first position has size > 0, submit one close_side Market IOC order
for the full size; in every case then cancel all open orders. -/
def close_all_positions (side : Side) (positions : PositionsResponse)
    (orders : OrdersResponse) : ShutdownTrace :=
  { closeOrder :=
      if positions.retCode = 0 then
        match positions.list with
        | [] => none
        | pos :: _ =>
          if pos.size > 0 then
            some { side := close_side side, orderType := OrderType.Market,
                   qty := pos.size, timeInForce := TimeInForce.IOC }
          else none
      else none
    cancelledIds := cancel_all_orders orders }

/-- Environment for one engine run: outcomes of the external calls made during
start-up.  config is the result of load_config (None covers file, JSON and
validation failures); tickerPrice the result of get_current_price (None covers
a non-zero retCode and the exception path); marketOrderOk whether
open_position succeeded (its leverage call, internal price re-fetch and market
order placement collapsed into one outcome). -/
structure StartEnv where
  config : Option Config
  tickerPrice : Option ℚ
  marketOrderOk : Bool

/-- Engine running flag (EngineState.isRunning of the data model). -/
structure EngineState where
  is_running : Bool
deriving DecidableEq, Repr

/-- Trace of one run of _run_trading_loop up to the monitoring loop: the TP
and DCA legs submitted and whether the monitoring loop was entered (its
iterations are not modelled). -/
structure RunTrace where
  tpPlaced : List Leg
  dcaPlaced : List Leg
  monitorEntered : Bool
deriving DecidableEq, Repr

/-- The trace of a run that aborted before placing any order. -/
def emptyTrace : RunTrace := { tpPlaced := [], dcaPlaced := [], monitorEntered := false }

/-- TradingEngine._run_trading_loop: fetch the current price (abort on
failure), open the position (abort on failure), place the TP ladder then the
DCA ladder at the fetched price, then enter monitoring.  A ZeroDivisionError
from the DCA computation propagates out (the TP legs placed before it are not
recorded in that case). -/
def run_trading_loop (config : Config) (env : StartEnv) : Except PyError RunTrace :=
  match env.tickerPrice with
  | none => Except.ok emptyTrace
  | some price =>
    if env.marketOrderOk then
      match place_dca_orders config price with
      | Except.error e => Except.error e
      | Except.ok dca =>
        Except.ok { tpPlaced := place_tp_orders config price, dcaPlaced := dca,
                    monitorEntered := true }
    else Except.ok emptyTrace

/-- TradingEngine.start: no-op when already running or when load_config fails
(is_running stays false); otherwise sets is_running := true and runs the
trading loop.  No failure path of the loop resets is_running. -/
def start (env : StartEnv) (s : EngineState) : EngineState × Except PyError RunTrace :=
  if s.is_running then (s, Except.ok emptyTrace)
  else
    match env.config with
    | none => (s, Except.ok emptyTrace)
    | some config => ({ is_running := true }, run_trading_loop config env)

/-- Scenario-A configuration from the specification: side long,
marketOrderAmount 1000, TP legs (5%, 50%) and (10%, 50%), DCA range 5% over 3
orders with limitOrdersAmount 300. -/
def cfgScenarioA : Config :=
  { side := Side.long
    market_order_amount := 1000
    tp_orders := [{ price_percent := 5, quantity_percent := 50 },
                  { price_percent := 10, quantity_percent := 50 }]
    range_percent := 5
    orders_count := 3
    limit_orders_amount := 300 }

/-- Positions response holding one position of size 0.02 at average price
50000. -/
def posResp002 : PositionsResponse :=
  { retCode := 0, list := [{ size := 2/100, avgPrice := 50000 }] }

/-- Start-up environment in which the configuration loads but the price fetch
fails (and the market order therefore never succeeds). -/
def envPriceFail : StartEnv :=
  { config := some cfgScenarioA, tickerPrice := none, marketOrderOk := false }

/-- Open-orders response holding one Limit and one Market order. -/
def ordersRespMixed : OrdersResponse :=
  { retCode := 0
    list := [{ orderId := 7, orderType := OrderType.Limit, orderStatus := OrderStatus.New },
             { orderId := 8, orderType := OrderType.Market, orderStatus := OrderStatus.New }] }

/-- C1: the claim places the DCA window below the current price for longs and
predicts prices [47500, 48750, 50000] at currentPrice=50000, rangePercent=5,
ordersCount=3, side=long.  The code instead returns [50000, 51250, 52500] —
a window above the current price — for side=long, and returns exactly the
claimed below-price ladder for side=short: the two window branches of
calculate_dca_prices are swapped relative to the claimed (and economically
meaningful) DCA direction. -/
theorem c1_dca_window_sides_swapped :
    calculate_dca_prices 50000 5 3 Side.long = Except.ok [50000, 51250, 52500] ∧
    calculate_dca_prices 50000 5 3 Side.short = Except.ok [47500, 48750, 50000] := by
  constructor <;>
    norm_num [calculate_dca_prices, dca_leg_price, dca_min_price, dca_max_price,
      dca_price_step, roundTo, round_eq, List.range_succ]

/-- C3: for every basisPrice > 0 and pricePercent > 0, calculate_tp_price moves
the TP leg price in the profit direction: strictly above the basis for longs,
strictly below it for shorts. -/
theorem c3_tp_price_profit_direction (basisPrice pricePercent : ℚ)
    (hb : 0 < basisPrice) (hp : 0 < pricePercent) :
    basisPrice < calculate_tp_price basisPrice pricePercent Side.long ∧
    calculate_tp_price basisPrice pricePercent Side.short < basisPrice := by
  unfold calculate_tp_price
  constructor <;> nlinarith [mul_pos hb hp]

/-- C3 witness: at basisPrice = 50000, pricePercent = 5, the long TP price
exceeds 50000 and the short TP price is below 50000. -/
theorem c3_tp_price_profit_direction_witness :
    (0 : ℚ) < 50000 ∧ (0 : ℚ) < 5 ∧
    (50000 : ℚ) < calculate_tp_price 50000 5 Side.long ∧
    calculate_tp_price 50000 5 Side.short < 50000 :=
  ⟨by norm_num, by norm_num,
    (c3_tp_price_profit_direction 50000 5 (by norm_num) (by norm_num)).1,
    (c3_tp_price_profit_direction 50000 5 (by norm_num) (by norm_num)).2⟩

/-- C9: for amount > 0 and price > 0, calculate_quantity is at least
MIN_QUANTITY = 0.001 and is an integer multiple of 1/1000 (at most three
decimal digits): it is round(amount/price, 3), clamped up to exactly 0.001
when the rounded value falls below it. -/
theorem c9_quantity_normalized (amount price : ℚ) (ha : 0 < amount) (hp : 0 < price) :
    MIN_QUANTITY ≤ calculate_quantity amount price ∧
    ∃ k : ℤ, calculate_quantity amount price = (k : ℚ) / 1000 := by
  unfold calculate_quantity ROUND_DECIMALS
  by_cases h : roundTo 3 (amount / price) < MIN_QUANTITY
  · rw [if_pos h]
    exact ⟨le_refl _, 1, by norm_num [MIN_QUANTITY]⟩
  · rw [if_neg h]
    refine ⟨le_of_not_lt h, round (amount / price * (10 : ℚ) ^ 3), ?_⟩
    unfold roundTo
    norm_num

/-- C9 witness: at amount = 100, price = 47500 the normalized quantity is at
least 0.001 and a multiple of 1/1000. -/
theorem c9_quantity_normalized_witness :
    (0 : ℚ) < 100 ∧ (0 : ℚ) < 47500 ∧
    MIN_QUANTITY ≤ calculate_quantity 100 47500 ∧
    ∃ k : ℤ, calculate_quantity 100 47500 = (k : ℚ) / 1000 :=
  ⟨by norm_num, by norm_num,
    (c9_quantity_normalized 100 47500 (by norm_num) (by norm_num)).1,
    (c9_quantity_normalized 100 47500 (by norm_num) (by norm_num)).2⟩

/-- C10: calculate_dca_prices raises ZeroDivisionError at ordersCount = 1 for
every price, range and side, and for every ordersCount ≥ 2 the division-by-zero
branch is unreachable and a price list is returned. -/
theorem c10_dca_raises_iff_count_one (current_price range_percent : ℚ) (side : Side) :
    calculate_dca_prices current_price range_percent 1 side =
      Except.error PyError.zeroDivision ∧
    ∀ orders_count : ℕ, 2 ≤ orders_count →
      ∃ prices, calculate_dca_prices current_price range_percent orders_count side =
        Except.ok prices := by
  constructor
  · rfl
  · intro n hn
    unfold calculate_dca_prices
    rw [if_neg (by omega)]
    exact ⟨_, rfl⟩

/-- C10 witness: at currentPrice = 50000, rangePercent = 5, side = long the
computation errors for ordersCount = 1 and succeeds for ordersCount = 3. -/
theorem c10_dca_raises_iff_count_one_witness :
    calculate_dca_prices 50000 5 1 Side.long = Except.error PyError.zeroDivision ∧
    2 ≤ 3 ∧
    ∃ prices, calculate_dca_prices 50000 5 3 Side.long = Except.ok prices :=
  ⟨(c10_dca_raises_iff_count_one 50000 5 Side.long).1, by norm_num,
    (c10_dca_raises_iff_count_one 50000 5 Side.long).2 3 (by norm_num)⟩

/-- An Option field passes a Python `field in config` check iff it is present. -/
theorem not_isNone_iff_isSome {α : Type _} (o : Option α) : ¬ o.isNone = true ↔ o.isSome = true := by
  cases o <;> simp

/-- C6 counterexample: a configuration missing limit_orders_amount passes
validate_config, so a missing limit_orders_amount is not a validation error
that aborts startup, contrary to the list of required fields in the claim. -/
theorem c6_missing_limit_orders_amount_passes :
    validate_config configWithoutLimitOrdersAmount = Except.ok true ∧
    configWithoutLimitOrdersAmount.limit_orders_amount = none :=
  ⟨rfl, rfl⟩

/-- C6 amended: validate_config succeeds iff symbol, side, market_order_amount,
leverage, tp_orders and limit_orders are all present, tp_orders is a non-empty
list, and limit_orders carries both range_percent and orders_count; a missing
field among these raises a ValueError which load_config turns into an aborted
startup.  limit_orders_amount is not among the validated fields. -/
theorem c6_validate_config_characterization (c : RawConfig) :
    validate_config c = Except.ok true ↔
      (c.symbol.isSome ∧ c.side.isSome ∧ c.market_order_amount.isSome ∧
       c.leverage.isSome ∧ c.tp_orders.isSome ∧ c.limit_orders.isSome ∧
       (c.tp_orders.getD []).length ≠ 0 ∧
       (c.limit_orders.getD { range_percent := none, orders_count := none }).range_percent.isSome ∧
       (c.limit_orders.getD { range_percent := none, orders_count := none }).orders_count.isSome) := by
  unfold validate_config
  constructor
  · intro h
    split_ifs at h with h1 h2 h3 h4 h5 h6 h7 h8 <;>
      try exact Except.noConfusion h
    simp only [Bool.or_eq_true, not_or] at h8
    exact ⟨(not_isNone_iff_isSome _).mp h1, (not_isNone_iff_isSome _).mp h2,
      (not_isNone_iff_isSome _).mp h3, (not_isNone_iff_isSome _).mp h4,
      (not_isNone_iff_isSome _).mp h5, (not_isNone_iff_isSome _).mp h6, h7,
      (not_isNone_iff_isSome _).mp h8.1, (not_isNone_iff_isSome _).mp h8.2⟩
  · rintro ⟨p1, p2, p3, p4, p5, p6, p7, p8, p9⟩
    rw [if_neg ((not_isNone_iff_isSome _).mpr p1), if_neg ((not_isNone_iff_isSome _).mpr p2),
      if_neg ((not_isNone_iff_isSome _).mpr p3), if_neg ((not_isNone_iff_isSome _).mpr p4),
      if_neg ((not_isNone_iff_isSome _).mpr p5), if_neg ((not_isNone_iff_isSome _).mpr p6),
      if_neg p7,
      if_neg (by
        simp only [Bool.or_eq_true, not_or]
        exact ⟨(not_isNone_iff_isSome _).mpr p8, (not_isNone_iff_isSome _).mpr p9⟩)]

/-- C2 counterexample: a tick whose polled position size (0.03) strictly
exceeds a positive previous size (0.02) — growth under the claimed rule — yet
triggers no TP recompute, because the trigger of the engine only scans the
open-orders list for status Filled and consults no size baseline (none is kept
anywhere in src/trading_engine.py). -/
theorem c2_growth_does_not_trigger_recompute :
    hasGrown_specContract (2/100) (3/100) = true ∧
    monitor_tick_recomputes
      { retCode := 0, list := [{ size := 3/100, avgPrice := 50000 }] }
      { retCode := 0,
        list := [{ orderId := 1, orderType := OrderType.Limit,
                   orderStatus := OrderStatus.New }] } = 0 := by
  constructor
  · norm_num [hasGrown_specContract]
  · norm_num [monitor_tick_recomputes, check_executed_orders_recomputes]
    decide

/-- C2 amended: the TP-recompute step runs, within one monitoring tick, once
per open order reported with status Filled, and only when the positions
response succeeds with a first position of size > 0 and the open-orders query
succeeds; no last-observed-size baseline exists and a bare size increase does
not trigger it. -/
theorem c2_recompute_trigger_characterization (positions : PositionsResponse)
    (orders : OrdersResponse) :
    0 < monitor_tick_recomputes positions orders ↔
      (positions.retCode = 0 ∧ orders.retCode = 0 ∧
        (∃ pos rest, positions.list = pos :: rest ∧ 0 < pos.size) ∧
        ∃ o ∈ orders.list, o.orderStatus = OrderStatus.Filled) := by
  unfold monitor_tick_recomputes check_executed_orders_recomputes
  by_cases hp : positions.retCode = 0
  · rcases hl : positions.list with _ | ⟨pos, rest⟩
    · simp [hp, hl]
    · by_cases hs : pos.size > 0
      · by_cases ho : orders.retCode = 0
        · simp [hp, hl, hs, ho, List.length_pos, List.filter_eq_nil_iff, List.cons.injEq]
        · simp [hp, hl, hs, ho]
      · simp [hp, hl, hs, List.cons.injEq]
  · simp [hp]

/-- C4: whenever recalculate_tp_orders produces new TP legs, the basis is the
exchange-reported average entry price of the first position of the fresh
positions response, the quantity of each leg is
calculate_quantity(quantity_percent / 100 * market_order_amount, basis) — the
original configured notional — and the size of the position never enters the plan:
any other positive size yields exactly the same legs. -/
theorem c4_recompute_basis_and_sizing (config : Config) (resp : PositionsResponse)
    (legs : List Leg) (h : recalculate_tp_orders config resp = some legs) :
    ∃ pos rest, resp.list = pos :: rest ∧ 0 < pos.size ∧
      legs = config.tp_orders.map (fun tp =>
        { side := get_tp_side config.side
          price := roundTo 2 (calculate_tp_price pos.avgPrice tp.price_percent config.side)
          qty := calculate_quantity (tp.quantity_percent / 100 * config.market_order_amount)
            pos.avgPrice }) ∧
      ∀ s : ℚ, 0 < s →
        recalculate_tp_orders config
          { retCode := resp.retCode, list := { size := s, avgPrice := pos.avgPrice } :: rest } =
          some legs := by
  unfold recalculate_tp_orders calculate_new_avg_price get_current_position_info at h ⊢
  by_cases hr : resp.retCode = 0
  · rcases hl : resp.list with _ | ⟨pos, rest⟩
    · rw [hl] at h
      simp [hr] at h
    · rw [hl] at h
      by_cases hs : pos.size > 0
      · simp only [hr, if_true, hs, Option.map_some'] at h
        by_cases hz : pos.avgPrice = 0
        · rw [if_pos hz] at h
          exact absurd h (by simp)
        · rw [if_neg hz] at h
          have h' : place_tp_orders config pos.avgPrice = legs := Option.some.inj h
          refine ⟨pos, rest, rfl, hs, ?_, ?_⟩
          · rw [← h']
            rfl
          · intro s hspos
            simp [hr, hspos, hz, ← h']
      · simp [hr, hs] at h
  · simp [hr] at h

/-- C4 witness: at the Scenario-A configuration and a position of size 0.02
with exchange-reported average price 50000, the recompute yields the plan of
place_tp_orders at basis 50000 and is invariant under the position size. -/
theorem c4_recompute_basis_and_sizing_witness :
    recalculate_tp_orders cfgScenarioA posResp002 =
      some (place_tp_orders cfgScenarioA 50000) ∧
    ∃ pos rest, posResp002.list = pos :: rest ∧ 0 < pos.size ∧
      place_tp_orders cfgScenarioA 50000 = cfgScenarioA.tp_orders.map (fun tp =>
        { side := get_tp_side cfgScenarioA.side
          price := roundTo 2 (calculate_tp_price pos.avgPrice tp.price_percent cfgScenarioA.side)
          qty := calculate_quantity
            (tp.quantity_percent / 100 * cfgScenarioA.market_order_amount) pos.avgPrice }) ∧
      ∀ s : ℚ, 0 < s →
        recalculate_tp_orders cfgScenarioA
          { retCode := posResp002.retCode,
            list := { size := s, avgPrice := pos.avgPrice } :: rest } =
          some (place_tp_orders cfgScenarioA 50000) := by
  have hEval : recalculate_tp_orders cfgScenarioA posResp002 =
      some (place_tp_orders cfgScenarioA 50000) := by
    norm_num [recalculate_tp_orders, calculate_new_avg_price, get_current_position_info,
      posResp002]
  exact ⟨hEval, c4_recompute_basis_and_sizing cfgScenarioA posResp002 _ hEval⟩

/-- C5 counterexample: with a loaded configuration and a failed price fetch,
the run aborts with no TP or DCA orders and without entering monitoring — but
the engine is left with is_running = true, not back in the not-running (Idle)
state the claim asserts. -/
theorem c5_abort_leaves_running_flag :
    (start envPriceFail { is_running := false }).2 = Except.ok emptyTrace ∧
    (start envPriceFail { is_running := false }).1.is_running = true :=
  ⟨rfl, rfl⟩

/-- C5 amended: if, starting from a non-running engine with a successfully
loaded configuration, the price fetch fails or the initial market order fails,
the run aborts with nothing further attempted — no TP or DCA orders, the
monitoring loop never entered — but is_running remains true: the failure paths
of _run_trading_loop never reset it. -/
theorem c5_startup_failure_aborts (env : StartEnv) (config : Config)
    (hc : env.config = some config)
    (hfail : env.tickerPrice = none ∨ env.marketOrderOk = false) :
    (start env { is_running := false }).2 = Except.ok emptyTrace ∧
    emptyTrace.tpPlaced = [] ∧ emptyTrace.dcaPlaced = [] ∧
    emptyTrace.monitorEntered = false ∧
    (start env { is_running := false }).1.is_running = true := by
  have h1 : start env { is_running := false } =
      ({ is_running := true }, run_trading_loop config env) := by
    simp [start, hc]
  rw [h1]
  refine ⟨?_, rfl, rfl, rfl, rfl⟩
  unfold run_trading_loop
  rcases hfail with hf | hf
  · rw [hf]
  · rcases ht : env.tickerPrice with _ | p
    · rfl
    · rw [hf]
      rfl

/-- C5 witness: the amended statement holds at the concrete environment whose
price fetch fails. -/
theorem c5_startup_failure_aborts_witness :
    envPriceFail.config = some cfgScenarioA ∧
    (envPriceFail.tickerPrice = none ∨ envPriceFail.marketOrderOk = false) ∧
    ((start envPriceFail { is_running := false }).2 = Except.ok emptyTrace ∧
      emptyTrace.tpPlaced = [] ∧ emptyTrace.dcaPlaced = [] ∧
      emptyTrace.monitorEntered = false ∧
      (start envPriceFail { is_running := false }).1.is_running = true) :=
  ⟨rfl, Or.inl rfl,
    c5_startup_failure_aborts envPriceFail cfgScenarioA rfl (Or.inl rfl)⟩

/-- C7: when the first reported position has size > 0 and the open-orders
query succeeds, shutdown submits exactly one Market IOC order on the side
opposite the configured one (short class Buy, long class Sell) for the full
position size, and then cancels every open order with no filter on its type. -/
theorem c7_flatten_and_cancel_all (side : Side) (pos : PositionInfo)
    (rest : List PositionInfo) (orders : OrdersResponse)
    (hp : 0 < pos.size) (ho : orders.retCode = 0) :
    close_side Side.short = ApiSide.Buy ∧ close_side Side.long = ApiSide.Sell ∧
    close_all_positions side { retCode := 0, list := pos :: rest } orders =
      { closeOrder := some { side := close_side side, orderType := OrderType.Market,
                             qty := pos.size, timeInForce := TimeInForce.IOC }
        cancelledIds := orders.list.map OpenOrder.orderId } := by
  refine ⟨rfl, rfl, ?_⟩
  unfold close_all_positions cancel_all_orders
  simp [hp, ho]

/-- C7 witness: Scenario D — position size 0.05, side short: one Buy Market
IOC order for 0.05 and cancellation of both remaining orders, Limit and
Market alike. -/
theorem c7_flatten_and_cancel_all_witness :
    (0 : ℚ) < 5/100 ∧ ordersRespMixed.retCode = 0 ∧
    close_all_positions Side.short
      { retCode := 0, list := [{ size := 5/100, avgPrice := 50000 }] } ordersRespMixed =
      { closeOrder := some { side := ApiSide.Buy, orderType := OrderType.Market,
                             qty := 5/100, timeInForce := TimeInForce.IOC }
        cancelledIds := [7, 8] } := by
  refine ⟨by norm_num, rfl, ?_⟩
  exact (c7_flatten_and_cancel_all Side.short { size := 5/100, avgPrice := 50000 } []
    ordersRespMixed (by norm_num) rfl).2.2

/-- Rounding to two decimals moves a rational by at most 1/200. -/
theorem abs_roundTo_two_sub_le (x : ℚ) : |roundTo 2 x - x| ≤ 1 / 200 := by
  have h : |x * (10:ℚ)^2 - (round (x * (10:ℚ)^2) : ℚ)| ≤ 1/2 := abs_sub_round (x * (10:ℚ)^2)
  have heq : roundTo 2 x - x = -((x * (10:ℚ)^2 - (round (x * (10:ℚ)^2) : ℚ)) / (10:ℚ)^2) := by
    unfold roundTo
    ring
  rw [heq, abs_neg, abs_div, abs_of_pos (show (0:ℚ) < (10:ℚ)^2 by norm_num)]
  rw [div_le_iff₀ (show (0:ℚ) < (10:ℚ)^2 by norm_num)]
  nlinarith [h]

/-- Rounding to two decimals is strictly monotone across a gap of at least one
price tick (0.01). -/
theorem roundTo_two_lt_of_add_le (x y : ℚ) (h : x + 1/100 ≤ y) :
    roundTo 2 x < roundTo 2 y := by
  unfold roundTo
  have key : round (x * (10:ℚ)^2) < round (y * (10:ℚ)^2) := by
    have h1 : x * (10:ℚ)^2 + 1 ≤ y * (10:ℚ)^2 := by nlinarith
    have h2 : round (x * (10:ℚ)^2) + 1 = round (x * (10:ℚ)^2 + 1) := (round_add_one _).symm
    have h3 : round (x * (10:ℚ)^2 + 1) ≤ round (y * (10:ℚ)^2) := by
      rw [round_eq, round_eq]
      exact Int.floor_mono (by linarith)
    omega
  have hq : ((round (x * (10:ℚ)^2) : ℚ)) < ((round (y * (10:ℚ)^2) : ℚ)) := by exact_mod_cast key
  exact (div_lt_div_iff_of_pos_right (show (0:ℚ) < (10:ℚ)^2 by norm_num)).mpr hq

/-- Both side branches of the DCA window have the same width,
current_price * range_percent / 100. -/
theorem dca_window_width (current_price range_percent : ℚ) (side : Side) :
    dca_max_price current_price range_percent side -
      dca_min_price current_price range_percent side =
      current_price * range_percent / 100 := by
  cases side <;> simp [dca_min_price, dca_max_price] <;> ring

/-- C8 amended: for currentPrice > 0, rangePercent > 0, ordersCount ≥ 2, and
an un-rounded step of at least one price tick (0.01, equivalently
currentPrice * rangePercent ≥ ordersCount - 1), calculate_dca_prices returns
exactly ordersCount prices, each round(minPrice + i*step, 2), strictly
monotonically increasing, whose first and last entries are the window bounds
rounded to 2 decimals and hence within 1/200 of those bounds.  (Without the
step hypothesis the rounding can collapse adjacent prices, refuting strict
monotonicity — see the counterexample.) -/
theorem c8_dca_ladder_shape (current_price range_percent : ℚ) (orders_count : ℕ) (side : Side)
    (hcp : 0 < current_price) (hr : 0 < range_percent) (hn : 2 ≤ orders_count)
    (hstep : ((orders_count : ℚ) - 1) ≤ current_price * range_percent) :
    ∃ prices, calculate_dca_prices current_price range_percent orders_count side =
        Except.ok prices ∧
      prices = (List.range orders_count).map
        (dca_leg_price current_price range_percent orders_count side) ∧
      prices.length = orders_count ∧
      prices.Pairwise (· < ·) ∧
      prices.head? = some (roundTo 2 (dca_min_price current_price range_percent side)) ∧
      prices.getLast? = some (roundTo 2 (dca_max_price current_price range_percent side)) ∧
      |roundTo 2 (dca_min_price current_price range_percent side) -
        dca_min_price current_price range_percent side| ≤ 1/200 ∧
      |roundTo 2 (dca_max_price current_price range_percent side) -
        dca_max_price current_price range_percent side| ≤ 1/200 := by
  have hne : orders_count ≠ 1 := by omega
  have hd : (0:ℚ) < (orders_count : ℚ) - 1 := by
    have h2 : (2:ℚ) ≤ (orders_count : ℚ) := by exact_mod_cast hn
    linarith
  have hwidth := dca_window_width current_price range_percent side
  have hstep100 : 1/100 ≤ dca_price_step current_price range_percent orders_count side := by
    unfold dca_price_step
    rw [hwidth, le_div_iff₀ hd]
    linarith
  have hmono : ∀ i j : ℕ, i < j →
      dca_leg_price current_price range_percent orders_count side i <
      dca_leg_price current_price range_percent orders_count side j := by
    intro i j hij
    unfold dca_leg_price
    apply roundTo_two_lt_of_add_le
    have hij' : (i:ℚ) + 1 ≤ (j:ℚ) := by exact_mod_cast hij
    have hsn : (0:ℚ) ≤ dca_price_step current_price range_percent orders_count side :=
      le_trans (by norm_num) hstep100
    nlinarith [mul_le_mul_of_nonneg_right hij' hsn]
  refine ⟨(List.range orders_count).map
      (dca_leg_price current_price range_percent orders_count side),
    ?_, rfl, by simp, ?_, ?_, ?_, abs_roundTo_two_sub_le _, abs_roundTo_two_sub_le _⟩
  · unfold calculate_dca_prices
    rw [if_neg hne]
  · rw [List.pairwise_map]
    exact (List.pairwise_lt_range orders_count).imp (fun hij => hmono _ _ hij)
  · obtain ⟨m, rfl⟩ : ∃ m, orders_count = m + 2 := ⟨orders_count - 2, by omega⟩
    rw [show m + 2 = (m + 1) + 1 from rfl, List.range_succ_eq_map]
    simp [dca_leg_price]
  · obtain ⟨m, rfl⟩ : ∃ m, orders_count = m + 2 := ⟨orders_count - 2, by omega⟩
    have hlast : dca_leg_price current_price range_percent (m + 2) side (m + 1) =
        roundTo 2 (dca_max_price current_price range_percent side) := by
      unfold dca_leg_price
      congr 1
      unfold dca_price_step
      have hcast : ((m + 2 : ℕ) : ℚ) - 1 = (m : ℚ) + 1 := by push_cast; ring
      have hm1 : ((m : ℚ) + 1) ≠ 0 := by positivity
      rw [hcast]
      push_cast
      field_simp
    rw [show m + 2 = (m + 1) + 1 from rfl, List.range_succ, List.map_append]
    simp [hlast]

/-- C8 counterexample: at currentPrice = 1, rangePercent = 0.2, ordersCount = 3,
side = long (window [1, 1.002], step 0.001) the planner returns [1, 1, 1]:
2-decimal rounding collapses the ladder, so the prices are not strictly
monotonic although currentPrice > 0, rangePercent > 0 and ordersCount ≥ 2. -/
theorem c8_rounding_collapses_monotonicity :
    calculate_dca_prices 1 (1/5) 3 Side.long = Except.ok [1, 1, 1] ∧
    ¬ ([(1:ℚ), 1, 1].Pairwise (· < ·)) := by
  constructor
  · norm_num [calculate_dca_prices, dca_leg_price, dca_min_price, dca_max_price,
      dca_price_step, roundTo, round_eq, List.range_succ]
  · intro h
    rcases List.pairwise_cons.mp h with ⟨h1, _⟩
    exact lt_irrefl (1:ℚ) (h1 1 (by simp))

/-- C8 witness: the amended statement holds at currentPrice = 50000,
rangePercent = 5, ordersCount = 3, side = long. -/
theorem c8_dca_ladder_shape_witness :
    (0:ℚ) < 50000 ∧ (0:ℚ) < 5 ∧ 2 ≤ 3 ∧ (((3:ℕ) : ℚ) - 1) ≤ 50000 * 5 ∧
    ∃ prices, calculate_dca_prices 50000 5 3 Side.long = Except.ok prices ∧
      prices = (List.range 3).map (dca_leg_price 50000 5 3 Side.long) ∧
      prices.length = 3 ∧
      prices.Pairwise (· < ·) ∧
      prices.head? = some (roundTo 2 (dca_min_price 50000 5 Side.long)) ∧
      prices.getLast? = some (roundTo 2 (dca_max_price 50000 5 Side.long)) ∧
      |roundTo 2 (dca_min_price 50000 5 Side.long) - dca_min_price 50000 5 Side.long| ≤ 1/200 ∧
      |roundTo 2 (dca_max_price 50000 5 Side.long) - dca_max_price 50000 5 Side.long| ≤ 1/200 :=
  ⟨by norm_num, by norm_num, by norm_num, by norm_num,
    c8_dca_ladder_shape 50000 5 3 Side.long (by norm_num) (by norm_num) (by norm_num)
      (by norm_num)⟩

end Bybit

